import Mathlib

/-!
Verification development for the `saikothasan/web` Cloudflare-Worker repository.

The repository contains two workers:

* `src/index.ts` — a browser-rendering pipeline: a zod-validated request
  (`url`, `action ∈ \x7banalyze_image, summarize_text, extract_html\x7d`, optional
  `prompt`, defaulted `model`, `renderOptions`) drives `launchAndNavigate`
  (puppeteer launch → newPage → optional setViewport → goto → optional
  waitForSelector), one of three extraction/inference arms, a browser close on
  the success path, and a JSON response envelope.
* `src/unnamed/part_000` — a second worker with `/generate`, `/feedback` and
  `/analyze-link` handlers (the last one drives the same browser service with
  a try/finally around navigation/extraction), plus a scraper example whose
  `getLLMResult` recovers a JSON value from a model's free-text reply via the
  regex `/(three backticks)(?:json)?\s*([\s\S]*?)\s*(three backticks)/`.

The embedding below models JavaScript strings as Lean `String` (sequences of
characters; the UTF-16 code-unit/scalar-value distinction is irrelevant to the
ASCII inputs of every claim), `JSON.parse` as a total fuel-based recursive
descent parser producing an exact `JValue` (numbers kept as
mantissa × 10^exponent, no float rounding), and each remote service (browser
rendering, Workers AI, the REST AI endpoint) as an explicit environment record
of per-stage outcomes, with a `Trace` counting browser launches, browser
closes, and model invocations.
-/

namespace Web

/-! ### JSON values

The exact result of `JSON.parse`: numbers are kept as mantissa × 10^exponent
(float rounding is not modelled; every claim uses small integers). -/

inductive JValue where
  | null : JValue
  | bool (b : Bool) : JValue
  | num (mantissa : Int) (exp10 : Int) : JValue
  | str (s : String) : JValue
  | arr (elems : List JValue) : JValue
  | obj (fields : List (String × JValue)) : JValue
deriving Repr

/-- Property read `o[k]` on a parsed JSON object: JavaScript object literals
built by `JSON.parse` keep the **last** duplicate key, so the fold takes the
last binding. Non-objects have no own properties (`undefined`, i.e. `none`). -/
def JValue.getField (j : JValue) (k : String) : Option JValue :=
  match j with
  | .obj fields => fields.foldl (fun acc kv => if kv.1 = k then some kv.2 else acc) none
  | _ => none

/-! ### A model of `JSON.parse` (ECMA-404 / ECMA-262 `ParseJSON`)

Insignificant whitespace is exactly space, tab, line feed, carriage return.
Strings reject raw control characters below U+0020 and accept the standard
escapes; `\uXXXX` surrogate pairs are combined (a lone surrogate, which a JS
string can hold but a Lean `Char` cannot, is mapped to U+FFFD — no claim
involves one). Numbers follow the JSON grammar (no leading zeros, no bare
`.5`, optional fraction and exponent). -/

def isJsonWs (c : Char) : Bool :=
  c = ' ' || c = '\t' || c = '\n' || c = '\r'

def jsonSkipWs (cs : List Char) : List Char :=
  cs.dropWhile isJsonWs

def isDigitCh (c : Char) : Bool := '0' ≤ c && c ≤ '9'

def digitVal (c : Char) : Nat := c.toNat - '0'.toNat

/-- Hex digit to value, by code point: `0`-`9` are 48-57, `A`-`F` 65-70,
`a`-`f` 97-102. -/
def hexDigitVal (c : Char) : Option Nat :=
  let n := c.toNat
  if 48 ≤ n && n ≤ 57 then some (n - 48)
  else if 65 ≤ n && n ≤ 70 then some (n - 55)
  else if 97 ≤ n && n ≤ 102 then some (n - 87)
  else none

def hexQuad (a b c d : Char) : Option Nat := do
  let x ← hexDigitVal a
  let y ← hexDigitVal b
  let z ← hexDigitVal c
  let w ← hexDigitVal d
  pure (x * 4096 + y * 256 + z * 16 + w)

/-- The single-character escapes of the JSON string grammar. -/
def jsonEscape (c : Char) : Option Char :=
  match c with
  | '"' => some '"'
  | '\\' => some '\\'
  | '/' => some '/'
  | 'b' => some (Char.ofNat 8)
  | 'f' => some (Char.ofNat 12)
  | 'n' => some '\n'
  | 'r' => some '\r'
  | 't' => some '\t'
  | _ => none

/-- Turn a UTF-16 code unit into a `Char`: a lone surrogate becomes U+FFFD
(a JS string keeps it; Lean `Char` cannot represent it — irrelevant here). -/
def codeUnitChar (n : Nat) : Char :=
  if 0xd800 ≤ n && n ≤ 0xdfff then Char.ofNat 0xfffd else Char.ofNat n

/-- Decode the string body after the opening quote into code points (escapes
resolved, `\uXXXX` kept as its raw code unit); structural on the characters. -/
def parseStringUnits (acc : List Nat) : List Char → Option (List Nat × List Char)
  | '"' :: rest => some (acc.reverse, rest)
  | '\\' :: 'u' :: a :: b :: c :: d :: rest =>
    match hexQuad a b c d with
    | none => none
    | some u => parseStringUnits (u :: acc) rest
  | '\\' :: e :: rest =>
    match jsonEscape e with
    | some ch => parseStringUnits (ch.toNat :: acc) rest
    | none => none
  | c :: rest =>
    if c.toNat < 0x20 then none else parseStringUnits (c.toNat :: acc) rest
  | [] => none

/-- Pair up `\uXXXX` surrogate halves, as the resulting JS string would. -/
def combineSurrogates : List Nat → List Char
  | hi :: lo :: rest =>
    if 0xd800 ≤ hi && hi ≤ 0xdbff && 0xdc00 ≤ lo && lo ≤ 0xdfff then
      Char.ofNat (0x10000 + (hi - 0xd800) * 1024 + (lo - 0xdc00)) :: combineSurrogates rest
    else
      codeUnitChar hi :: combineSurrogates (lo :: rest)
  | [u] => [codeUnitChar u]
  | [] => []

/-- String body after the opening quote; `none` where JS throws. -/
def parseStringBody (acc : List Char) (cs : List Char) : Option (String × List Char) :=
  match parseStringUnits (acc.map Char.toNat) cs with
  | some (units, rest) => some (String.mk (combineSurrogates units), rest)
  | none => none

def spanDigits (cs : List Char) : List Char × List Char :=
  (cs.takeWhile isDigitCh, cs.dropWhile isDigitCh)

def digitsToNat (ds : List Char) : Nat :=
  ds.foldl (fun acc c => acc * 10 + digitVal c) 0

/-- JSON number grammar: `-? (0 | [1-9][0-9]*) (. [0-9]+)? ([eE][+-]?[0-9]+)?`.
Returns the exact value as mantissa × 10^exp10. -/
def parseNumberTok (cs : List Char) : Option ((Int × Int) × List Char) :=
  let neg : Bool := cs.headD ' ' = '-'
  let cs1 := if neg then cs.tail else cs
  let (intDs, cs2) := spanDigits cs1
  if intDs.isEmpty then none
  else if 1 < intDs.length && intDs.headD '0' = '0' then none  -- no leading zeros
  else
    let (fracDs, cs3) :=
      match cs2 with
      | '.' :: r => spanDigits r
      | _ => ([], cs2)
    let fracOk := match cs2 with | '.' :: _ => !fracDs.isEmpty | _ => true
    if !fracOk then none
    else
      let afterFrac := cs3
      let expRes : Option (Int × List Char) :=
        match afterFrac with
        | 'e' :: r | 'E' :: r =>
          let (esign, r2) := match r with
            | '+' :: rr => ((1 : Int), rr)
            | '-' :: rr => ((-1 : Int), rr)
            | _ => ((1 : Int), r)
          let (expDs, r3) := spanDigits r2
          if expDs.isEmpty then none else some (esign * (digitsToNat expDs : Int), r3)
        | _ => some (0, afterFrac)
      match expRes with
      | none => none
      | some (e, rest) =>
        let mantAbs : Nat := digitsToNat (intDs ++ fracDs)
        let mant : Int := if neg then -(mantAbs : Int) else (mantAbs : Int)
        some ((mant, e - (fracDs.length : Int)), rest)

mutual

/-- One JSON value starting at `cs` (leading whitespace already skipped). -/
def parseValue (fuel : Nat) (cs : List Char) : Option (JValue × List Char) :=
  match fuel with
  | 0 => none
  | fuel + 1 =>
    match cs with
    | 't' :: 'r' :: 'u' :: 'e' :: rest => some (.bool true, rest)
    | 'f' :: 'a' :: 'l' :: 's' :: 'e' :: rest => some (.bool false, rest)
    | 'n' :: 'u' :: 'l' :: 'l' :: rest => some (.null, rest)
    | '"' :: rest =>
      match parseStringBody [] rest with
      | some (s, rest2) => some (.str s, rest2)
      | none => none
    | '[' :: rest =>
      let rest := jsonSkipWs rest
      match rest with
      | ']' :: rest2 => some (.arr [], rest2)
      | _ =>
        match parseArrayItems fuel rest with
        | some (es, rest2) => some (.arr es, rest2)
        | none => none
    | '{' :: rest =>
      let rest := jsonSkipWs rest
      match rest with
      | '}' :: rest2 => some (.obj [], rest2)
      | _ =>
        match parseObjectMembers fuel rest with
        | some (ms, rest2) => some (.obj ms, rest2)
        | none => none
    | _ =>
      match parseNumberTok cs with
      | some ((m, e), rest) => some (.num m e, rest)
      | none => none

/-- Comma-separated values up to the closing bracket (first value starts here). -/
def parseArrayItems (fuel : Nat) (cs : List Char) : Option (List JValue × List Char) :=
  match fuel with
  | 0 => none
  | fuel + 1 =>
    match parseValue fuel cs with
    | none => none
    | some (v, rest) =>
      match jsonSkipWs rest with
      | ',' :: rest2 =>
        match parseArrayItems fuel (jsonSkipWs rest2) with
        | some (vs, rest3) => some (v :: vs, rest3)
        | none => none
      | ']' :: rest2 => some ([v], rest2)
      | _ => none

/-- Comma-separated `"key": value` members up to the closing brace. -/
def parseObjectMembers (fuel : Nat) (cs : List Char) : Option (List (String × JValue) × List Char) :=
  match fuel with
  | 0 => none
  | fuel + 1 =>
    match cs with
    | '"' :: rest =>
      match parseStringBody [] rest with
      | none => none
      | some (k, rest2) =>
        match jsonSkipWs rest2 with
        | ':' :: rest3 =>
          match parseValue fuel (jsonSkipWs rest3) with
          | none => none
          | some (v, rest4) =>
            match jsonSkipWs rest4 with
            | ',' :: rest5 =>
              match parseObjectMembers fuel (jsonSkipWs rest5) with
              | some (ms, rest6) => some ((k, v) :: ms, rest6)
              | none => none
            | '}' :: rest5 => some ([(k, v)], rest5)
            | _ => none
        | _ => none
    | _ => none

end

/-- `JSON.parse`: a whole-input parse, `none` where JS would throw a
`SyntaxError`. Fuel `length + 1` suffices: every nesting level consumes at
least one character. -/
def jsonParse (s : String) : Option JValue :=
  match parseValue (s.data.length + 1) (jsonSkipWs s.data) with
  | some (v, rest) => if (jsonSkipWs rest).isEmpty then some v else none
  | none => none

/-! ### The fenced-block recovery regex of `getLLMResult`

`src/unnamed/part_000` resolves a model reply with

  `const value = (text.match(/(3 backticks)(?:json)?\s*([\s\S]*?)\s*(3 backticks)/) || [null, text])[1]`

A JS regex `match` takes the leftmost start where the whole pattern matches.
At such a start the engine's backtracking order (greedy `(?:json)?`, greedy
first `\s*`, lazy capture, greedy second `\s*`) resolves to: skip the literal
tag `json` when it immediately follows the opening fence, then capture the
text up to the **first** later fence with surrounding `\s` stripped — which is
what `scanFence` below computes directly. A start position succeeds exactly
when a fence opens there and another fence occurs after the (possibly
tag-skipped) opening, since neither `json` nor a whitespace run can contain a
backtick. -/

/-- The JS `\s` character class (ECMA-262 WhiteSpace and LineTerminator):
space, tab, LF, VT, FF, CR, NBSP, U+1680, U+2000-U+200A, LS, PS, U+202F,
U+205F, U+3000, and the BOM U+FEFF. -/
def isJsWs (c : Char) : Bool :=
  c = ' ' || c = '\t' || c = '\n' || c = '\r' ||
  c.toNat = 0xb || c.toNat = 0xc || c.toNat = 0xa0 || c.toNat = 0x1680 ||
  (0x2000 ≤ c.toNat && c.toNat ≤ 0x200a) ||
  c.toNat = 0x2028 || c.toNat = 0x2029 || c.toNat = 0x202f ||
  c.toNat = 0x205f || c.toNat = 0x3000 || c.toNat = 0xfeff

/-- Strip JS whitespace from both ends. -/
def jsTrim (cs : List Char) : List Char :=
  ((cs.dropWhile isJsWs).reverse.dropWhile isJsWs).reverse

/-- Does a triple-backtick fence start here? -/
def fenceHead (cs : List Char) : Bool :=
  match cs with
  | a :: b :: c :: _ => a = '`' && b = '`' && c = '`'
  | _ => false

/-- Skip the optional `json` tag right after an opening fence. -/
def afterOpenTag : List Char → List Char
  | 'j' :: 's' :: 'o' :: 'n' :: rest => rest
  | cs => cs

/-- Split at the first fence: `some (before, fromFence)`, or `none` if no
fence occurs. -/
def splitAtFence (cs : List Char) : Option (List Char × List Char) :=
  match cs with
  | [] => none
  | c :: rest =>
    if fenceHead cs then some ([], cs)
    else
      match splitAtFence rest with
      | some (pre, post) => some (c :: pre, post)
      | none => none

/-- The capture group if the whole pattern matches starting exactly here. -/
def tryMatchAt (cs : List Char) : Option (List Char) :=
  if fenceHead cs then
    match splitAtFence (afterOpenTag (cs.drop 3)) with
    | some (interior, _) => some (jsTrim interior)
    | none => none
  else none

/-- Leftmost match of the recovery regex: the captured interior, if any. -/
def scanFence : List Char → Option (List Char)
  | [] => none
  | c :: rest =>
    match tryMatchAt (c :: rest) with
    | some r => some r
    | none => scanFence rest

/-- Whether any fence occurs in the text. -/
def hasFence : List Char → Bool
  | [] => false
  | c :: rest => fenceHead (c :: rest) || hasFence rest

/-- `(text.match(…) || [null, text])[1]`: the fenced interior when the regex
matches, otherwise the whole reply. -/
def llmCandidate (text : String) : String :=
  match scanFence text.data with
  | some interior => String.mk interior
  | none => text

/-- `try { return JSON.parse(value) } catch (e) { console.error(…) }`: the
parsed value on success; on failure the error is logged and the function
falls through, returning `undefined` — the explicit unresolved marker,
distinguishable from every parse result. -/
def resolveStructured (text : String) : Option JValue :=
  jsonParse (llmCandidate text)

/-! ### The zod request schema of `src/index.ts`

`RequestSchema = z.object(\x7b url, action, prompt, model, renderOptions \x7d)
  .refine(data => !(data.action === 'analyze_image' && !data.prompt), …)`

zod collects one issue per failing field, in shape-key order, and runs the
`.refine` predicate only when the base object parse produced no issue.
`z.string().optional()` accepts a missing key or a string — not `null`.
Issue messages follow zod's defaults except where the source supplies one. -/

inductive ActionKind where
  | analyze_image | summarize_text | extract_html
deriving DecidableEq, Repr

structure Viewport where
  width : Nat
  height : Nat
deriving DecidableEq, Repr

structure RenderOptions where
  viewport : Option Viewport
  fullPage : Bool
  waitForSelector : Option String
deriving DecidableEq, Repr

structure ValidReq where
  url : String
  action : ActionKind
  prompt : Option String
  model : String
  renderOptions : RenderOptions
deriving DecidableEq, Repr

structure ZodIssue where
  path : List String
  message : String
deriving DecidableEq, Repr

/-- Acceptance of the WHATWG `URL` constructor, which backs `z.string().url()`:
a scheme (an ASCII letter then letters, digits, `+`, `-`, `.`) followed by
`:`; the special schemes (`http`, `https`, `ws`, `wss`, `ftp`) further need
`//` and a nonempty host. Simplified to the structure that separates the
valid from the invalid URLs relevant here. -/
def isSchemeStart (c : Char) : Bool :=
  ('a' ≤ c && c ≤ 'z') || ('A' ≤ c && c ≤ 'Z')

def isSchemeChar (c : Char) : Bool :=
  isSchemeStart c || isDigitCh c || c = '+' || c = '-' || c = '.'

def lowerAscii (c : Char) : Char :=
  if 'A' ≤ c && c ≤ 'Z' then Char.ofNat (c.toNat + 32) else c

def isValidUrl (s : String) : Bool :=
  match s.data with
  | [] => false
  | c :: rest =>
    isSchemeStart c &&
    let schemeRest := rest.takeWhile isSchemeChar
    let afterScheme := rest.dropWhile isSchemeChar
    match afterScheme with
    | ':' :: tail =>
      let scheme := (c :: schemeRest).map lowerAscii
      if scheme = "http".data || scheme = "https".data || scheme = "ws".data ||
          scheme = "wss".data || scheme = "ftp".data then
        match tail with
        | '/' :: '/' :: h :: _ => decide (h ≠ '/')
        | _ => false
      else true
    | _ => false

def defaultModel : String := "@cf/llava-1.5-7b-hf"

def checkUrl (j : JValue) : Except ZodIssue String :=
  match j.getField "url" with
  | none => .error ⟨["url"], "Required"⟩
  | some (.str s) =>
    if isValidUrl s then .ok s else .error ⟨["url"], "A valid URL is required."⟩
  | some _ => .error ⟨["url"], "Expected string, received other type"⟩

def checkAction (j : JValue) : Except ZodIssue ActionKind :=
  match j.getField "action" with
  | none => .error ⟨["action"], "Required"⟩
  | some (.str "analyze_image") => .ok .analyze_image
  | some (.str "summarize_text") => .ok .summarize_text
  | some (.str "extract_html") => .ok .extract_html
  | some (.str _) => .error ⟨["action"], "Invalid enum value"⟩
  | some _ => .error ⟨["action"], "Expected string, received other type"⟩

def checkPrompt (j : JValue) : Except ZodIssue (Option String) :=
  match j.getField "prompt" with
  | none => .ok none
  | some (.str s) => .ok (some s)
  | some _ => .error ⟨["prompt"], "Expected string, received other type"⟩

def checkModel (j : JValue) : Except ZodIssue String :=
  match j.getField "model" with
  | none => .ok defaultModel
  | some (.str s) => .ok s
  | some _ => .error ⟨["model"], "Expected string, received other type"⟩

/-- `z.number().int().positive()` on a viewport dimension. -/
def checkDimension (j : JValue) (path : List String) : Except ZodIssue Nat :=
  match j with
  | .num m e =>
    if 0 ≤ e then
      if 0 < m then .ok ((m * (10 : Int) ^ e.toNat).toNat)
      else .error ⟨path, "Number must be greater than 0"⟩
    else if m % (10 : Int) ^ (-e).toNat = 0 then
      if 0 < m then .ok ((m / (10 : Int) ^ (-e).toNat).toNat)
      else .error ⟨path, "Number must be greater than 0"⟩
    else .error ⟨path, "Expected integer, received float"⟩
  | _ => .error ⟨path, "Expected number, received other type"⟩

def checkViewport (j : JValue) : Except (List ZodIssue) (Option Viewport) :=
  match j.getField "viewport" with
  | none => .ok none
  | some (.obj fs) =>
    let vj : JValue := .obj fs
    let wR := match vj.getField "width" with
      | none => Except.error (⟨["renderOptions", "viewport", "width"], "Required"⟩ : ZodIssue)
      | some w => checkDimension w ["renderOptions", "viewport", "width"]
    let hR := match vj.getField "height" with
      | none => Except.error (⟨["renderOptions", "viewport", "height"], "Required"⟩ : ZodIssue)
      | some h => checkDimension h ["renderOptions", "viewport", "height"]
    match wR, hR with
    | .ok w, .ok h => .ok (some ⟨w, h⟩)
    | .error i, .ok _ => .error [i]
    | .ok _, .error i => .error [i]
    | .error i1, .error i2 => .error [i1, i2]
  | some _ => .error [⟨["renderOptions", "viewport"], "Expected object, received other type"⟩]

/-- The issues contributed by one field check. -/
def issuesOf {α : Type} : Except ZodIssue α → List ZodIssue
  | .error i => [i]
  | .ok _ => []

/-- The issues contributed by a check that can raise several. -/
def issuesOfL {α : Type} : Except (List ZodIssue) α → List ZodIssue
  | .error is => is
  | .ok _ => []

def checkRenderOptions (j : JValue) : Except (List ZodIssue) RenderOptions :=
  match j.getField "renderOptions" with
  | none => .ok ⟨none, false, none⟩  -- `.optional().default(\x7b\x7d)`
  | some (.obj fs) =>
    let ro : JValue := .obj fs
    let vpR := checkViewport ro
    let fpR : Except ZodIssue Bool :=
      match ro.getField "fullPage" with
      | none => .ok false  -- `.optional().default(false)`
      | some (.bool b) => .ok b
      | some _ => .error ⟨["renderOptions", "fullPage"], "Expected boolean, received other type"⟩
    let wsR : Except ZodIssue (Option String) :=
      match ro.getField "waitForSelector" with
      | none => .ok none
      | some (.str s) => .ok (some s)
      | some _ =>
        .error ⟨["renderOptions", "waitForSelector"], "Expected string, received other type"⟩
    match vpR, fpR, wsR with
    | .ok vp, .ok fp, .ok ws => .ok ⟨vp, fp, ws⟩
    | _, _, _ => .error (issuesOfL vpR ++ issuesOf fpR ++ issuesOf wsR)
  | some _ => .error [⟨["renderOptions"], "Expected object, received other type"⟩]

/-- The `.refine` issue of the source schema. -/
def promptRequiredIssue : ZodIssue :=
  ⟨["prompt"], "A `prompt` is required when `action` is `analyze_image`."⟩

/-- `RequestSchema.safeParse`: issues in shape-key order; the refinement runs
only on a clean base parse. JS `!data.prompt` is true for a missing prompt
and for the empty string. -/
def safeParseRequest (j : JValue) : Except (List ZodIssue) ValidReq :=
  match j with
  | .obj _ =>
    let urlR := checkUrl j
    let actionR := checkAction j
    let promptR := checkPrompt j
    let modelR := checkModel j
    let roR := checkRenderOptions j
    match urlR, actionR, promptR, modelR, roR with
    | .ok u, .ok a, .ok p, .ok m, .ok ro =>
      if a = .analyze_image ∧ (p = none ∨ p = some "") then
        .error [promptRequiredIssue]
      else
        .ok ⟨u, a, p, m, ro⟩
    | _, _, _, _, _ =>
      .error (issuesOf urlR ++ issuesOf actionR ++ issuesOf promptR ++
        issuesOf modelR ++ issuesOfL roR)
  | _ => .error [⟨[], "Expected object, received other type"⟩]

/-! ### The `src/index.ts` handler

The remote collaborators — the browser-rendering service and Workers AI —
are an explicit per-request environment: each stage either resolves or
throws (carrying the thrown message), and `aiRun` maps a model id and
payload to the model's `response` text or a throw. A `Trace` records how
often a browser was launched, how often one was closed, and every model
invocation, in order. `executionTimeMs` (wall-clock time) is not modelled. -/

inductive AiInput where
  | image (prompt : String) (image : List Nat)
  | textPrompt (prompt : String)
  | chat (system : String) (user : String)
deriving DecidableEq, Repr

structure Trace where
  launches : Nat
  closes : Nat
  aiCalls : List (String × AiInput)
deriving DecidableEq, Repr

def Trace.start : Trace := ⟨0, 0, []⟩

structure RemoteEnv where
  launchThrow : Option String
  newPageThrow : Option String
  setViewportThrow : Option String
  gotoThrow : Option String
  waitSelThrow : Option String
  screenshot : Bool → Except String (List Nat)
  innerText : Except String String
  content : Except String String
  aiRun : String → AiInput → Except String String

/-- After `page.goto(url, \x7bwaitUntil: 'networkidle2'\x7d)`: the optional
`page.waitForSelector(sel, \x7btimeout: 10000\x7d)`. -/
def navigateSteps (env : RemoteEnv) (ro : RenderOptions) (t : Trace) :
    Except (String × Trace) Trace :=
  match env.gotoThrow with
  | some e => .error (e, t)
  | none =>
    match ro.waitForSelector with
    | some _ =>
      match env.waitSelThrow with
      | some e => .error (e, t)
      | none => .ok t
    | none => .ok t

/-- `launchAndNavigate`: `puppeteer.launch` (a successful launch acquires the
browser session and is counted), `browser.newPage()`, `page.setViewport`
only when a viewport was supplied, then navigation. -/
def launchAndNavigate (env : RemoteEnv) (ro : RenderOptions) (t : Trace) :
    Except (String × Trace) Trace :=
  match env.launchThrow with
  | some e => .error (e, t)
  | none =>
    let t := { t with launches := t.launches + 1 }
    match env.newPageThrow with
    | some e => .error (e, t)
    | none =>
      match ro.viewport with
      | some _ =>
        match env.setViewportThrow with
        | some e => .error (e, t)
        | none => navigateSteps env ro t
      | none => navigateSteps env ro t

structure Metadata where
  url : String
  action : ActionKind
  modelUsed : String
deriving DecidableEq, Repr

inductive RespData where
  | image (aiResponse : String)
  | summary (aiResponse : String) (modelUsed : String)
  | html (html : String)
deriving DecidableEq, Repr

inductive RespBody where
  | methodNotAllowed
  | validationError (message : String) (details : List ZodIssue)
  | runtimeError (message : String)
  | success (data : RespData) (meta : Metadata)
deriving DecidableEq, Repr

structure HandlerResult where
  status : Nat
  body : RespBody
  trace : Trace
deriving DecidableEq, Repr

/-- `data.modelUsed || model`: JS `||` falls back on the empty string too. -/
def dataModelOrReq (d : RespData) (model : String) : String :=
  match d with
  | .summary _ m => if m = "" then model else m
  | _ => model

/-- The shared tail of the success path: `await page.browser().close()` (one
release, modelled as always resolving) and the `Response.json` envelope. -/
def finishSuccess (req : ValidReq) (d : RespData) (t : Trace) : HandlerResult :=
  let t := { t with closes := t.closes + 1 }
  ⟨200, .success d ⟨req.url, req.action, dataModelOrReq d req.model⟩, t⟩

/-- The outermost `catch`: a 500 envelope from the thrown message. -/
def catchResult (e : String) (t : Trace) : HandlerResult :=
  ⟨500, .runtimeError ("An internal server error occurred: " ++ e), t⟩

def summarizationPromptHeader : String :=
  "Please provide a concise summary of the following text extracted from a webpage:\n\n---\n\n"

/-- JS `s.substring(0, n)` (code units modelled as characters). -/
def jsSubstring (s : String) (n : Nat) : String :=
  String.mk (s.data.take n)

/-- The summarization prompt: fixed scaffolding plus
`pageText.substring(0, 8000)`. -/
def summarizationPrompt (pageText : String) : String :=
  summarizationPromptHeader ++ jsSubstring pageText 8000

def textModel : String := "@cf/meta/llama-2-7b-chat-int8"

/-- The `case 'analyze_image'` arm. -/
def runImage (env : RemoteEnv) (req : ValidReq) : HandlerResult :=
  match launchAndNavigate env req.renderOptions Trace.start with
  | .error (e, t) => catchResult e t
  | .ok t =>
    match env.screenshot req.renderOptions.fullPage with
    | .error e => catchResult e t
    | .ok bytes =>
      -- `prompt!`: the refinement guarantees a (nonempty) prompt here
      let input := AiInput.image (req.prompt.getD "") bytes
      let t := { t with aiCalls := t.aiCalls ++ [(req.model, input)] }
      match env.aiRun req.model input with
      | .error e => catchResult e t
      | .ok resp => finishSuccess req (.image resp) t

/-- The `case 'summarize_text'` arm. -/
def runSummarize (env : RemoteEnv) (req : ValidReq) : HandlerResult :=
  match launchAndNavigate env req.renderOptions Trace.start with
  | .error (e, t) => catchResult e t
  | .ok t =>
    match env.innerText with
    | .error e => catchResult e t
    | .ok pageText =>
      let input := AiInput.textPrompt (summarizationPrompt pageText)
      let t := { t with aiCalls := t.aiCalls ++ [(textModel, input)] }
      match env.aiRun textModel input with
      | .error e => catchResult e t
      | .ok resp => finishSuccess req (.summary resp textModel) t

/-- The `case 'extract_html'` arm. -/
def runHtml (env : RemoteEnv) (req : ValidReq) : HandlerResult :=
  match launchAndNavigate env req.renderOptions Trace.start with
  | .error (e, t) => catchResult e t
  | .ok t =>
    match env.content with
    | .error e => catchResult e t
    | .ok html => finishSuccess req (.html html) t

/-- Thrown by `request.json()` on a body that is not JSON (the platform's
`SyntaxError` message; its exact text is platform-specific). -/
def jsonSyntaxErrorMsg : String := "Unexpected token in JSON"

namespace Index

/-- The exported `fetch` of `src/index.ts`: method gate, `request.json()`,
zod validation, the action switch, shared cleanup/response; every throw
lands in the single outer `catch`. -/
def fetch (env : RemoteEnv) (method : String) (body : String) : HandlerResult :=
  if method ≠ "POST" then ⟨405, .methodNotAllowed, Trace.start⟩
  else
    match jsonParse body with
    | none => catchResult jsonSyntaxErrorMsg Trace.start
    | some j =>
      match safeParseRequest j with
      | .error issues => ⟨400, .validationError "Invalid request body." issues, Trace.start⟩
      | .ok req =>
        match req.action with
        | .analyze_image => runImage env req
        | .summarize_text => runSummarize env req
        | .extract_html => runHtml env req

end Index

/-! ### The `/analyze-link` handler of `src/unnamed/part_000`

`puppeteer.launch` and `browser.newPage()` sit outside the `try/finally`;
only `page.goto` (domcontentloaded, 30 s) and the `$eval` extraction are
inside the `try`, with `await browser.close()` in the `finally` — so the
close runs both after a navigation/extraction throw and on the success path,
before the AI call. -/

structure LinkEnv where
  launchThrow : Option String
  newPageThrow : Option String
  gotoThrow : Option String
  bodyText : Except String String
  aiRun : String → AiInput → Except String String

inductive LinkRespBody where
  | errorOnly (error : String)
  | errorDetails (error : String) (details : String)
  | analysis (analysis : String) (originalUrl : String)
deriving DecidableEq, Repr

structure LinkResult where
  status : Nat
  body : LinkRespBody
  trace : Trace
deriving DecidableEq, Repr

def linkModel : String := "@cf/google/gemma-3-12b-it"

/-- `if (pageContent.length > 10000) pageContent = pageContent.substring(0, 10000) + "..."`. -/
def linkTruncate (s : String) : String :=
  if 10000 < s.length then jsSubstring s 10000 ++ "..." else s

def linkPromptHeader : String :=
  "Summarize the following text from a webpage. Focus on key information and main points. If the text is too short or irrelevant, state that.\n        \n        Text:\n        "

def linkSystemMsg : String :=
  "You are a helpful assistant that summarizes web page content."

/-- The url-field read `const \x7burl: urlToAnalyze\x7d = await request.json()`
followed by the two guards. `!urlToAnalyze` is true for a missing field,
`null`, `false`, `0` and the empty string; a present non-string truthy value
reaches `new URL(...)` through JS string coercion and (for the shapes
relevant here) fails it. -/
def linkUrlOf (j : JValue) : Option String :=
  match j.getField "url" with
  | some (.str s) => some s
  | _ => none

namespace Worker

/-- The `/analyze-link` POST branch of the second worker's `fetch`. -/
def analyzeLink (env : LinkEnv) (body : String) : LinkResult :=
  match jsonParse body with
  | none => ⟨500, .errorDetails "Failed to analyze link" jsonSyntaxErrorMsg, Trace.start⟩
  | some j =>
    match linkUrlOf j with
    | none =>
      match j.getField "url" with
      | some (.str _) => ⟨400, .errorOnly "URL to analyze is required", Trace.start⟩  -- unreachable
      | some .null | some (.bool false) | none =>
        ⟨400, .errorOnly "URL to analyze is required", Trace.start⟩
      | some (.num 0 _) => ⟨400, .errorOnly "URL to analyze is required", Trace.start⟩
      | some _ => ⟨400, .errorOnly "Invalid URL format", Trace.start⟩
    | some u =>
      if u = "" then ⟨400, .errorOnly "URL to analyze is required", Trace.start⟩
      else if !isValidUrl u then ⟨400, .errorOnly "Invalid URL format", Trace.start⟩
      else
        match env.launchThrow with
        | some e => ⟨500, .errorDetails "Failed to analyze link" e, Trace.start⟩
        | none =>
          let t : Trace := ⟨1, 0, []⟩
          match env.newPageThrow with
          | some e => ⟨500, .errorDetails "Failed to analyze link" e, t⟩  -- close never runs
          | none =>
            match env.gotoThrow with
            | some e =>
              -- catch builds the 500 response; finally still closes the browser
              ⟨500, .errorOnly ("Failed to load or extract content from URL: " ++ e),
                { t with closes := t.closes + 1 }⟩
            | none =>
              match env.bodyText with
              | .error e =>
                ⟨500, .errorOnly ("Failed to load or extract content from URL: " ++ e),
                  { t with closes := t.closes + 1 }⟩
              | .ok raw =>
                let t := { t with closes := t.closes + 1 }  -- finally, success path
                let content := linkTruncate raw
                let input := AiInput.chat linkSystemMsg (linkPromptHeader ++ content)
                let t := { t with aiCalls := t.aiCalls ++ [(linkModel, input)] }
                match env.aiRun linkModel input with
                | .error e => ⟨500, .errorDetails "Failed to analyze link" e, t⟩
                | .ok resp => ⟨200, .analysis resp u, t⟩

end Worker

/-! ### `getLLMResult` of the scraper worker (second document of `part_000`)

One `fetch` of the Workers-AI REST endpoint; a non-2xx response throws
`LLM call failed $\x7baiUrl\x7d $\x7bresponse.status\x7d`; otherwise the reply text is run
through the recovery regex and `JSON.parse` — a parse failure is logged and
the function returns `undefined` (`none`), never throwing. The list in the
result collects the request bodies sent upstream (so "no retry" is the
statement that it always has length one). -/

structure UpstreamResp where
  ok : Bool
  status : Nat
  bodyText : String

def scraperModel : String := "@hf/thebloke/deepseek-coder-6.7b-instruct-awq"

def aiUrl (accountId : String) : String :=
  "https://api.cloudflare.com/client/v4/accounts/" ++ accountId ++ "/ai/run/" ++ scraperModel

/-- `\x7b messages: [\x7b role: "user", content: prompt \x7d] \x7d`. -/
def llmRequestBody (prompt : String) : JValue :=
  .obj [("messages", .arr [.obj [("role", .str "user"), ("content", .str prompt)]])]

/-- `data.result.response || ''` with JS member-access semantics: a missing
`result` (or `result: null`) throws a TypeError; a missing, `null` or falsy
`response` degrades to the empty string; a truthy non-string `response`
would throw at `.match` (no such value is produced by the modelled service).
-/
def replyTextOf (data : JValue) : Except String String :=
  match data.getField "result" with
  | none => .error "TypeError: Cannot read properties of undefined"
  | some .null => .error "TypeError: Cannot read properties of null"
  | some r =>
    match r.getField "response" with
    | some (.str s) => .ok s
    | some (.bool true) => .error "TypeError: text.match is not a function"
    | some (.num m _) =>
      if m = 0 then .ok "" else .error "TypeError: text.match is not a function"
    | some (.arr a) => .error ("TypeError: unsupported reply shape" ++ toString a.length)
    | some (.obj o) => .error ("TypeError: unsupported reply shape" ++ toString o.length)
    | _ => .ok ""

namespace Scraper

/-- `getLLMResult(env, prompt, schema?)`: the outcome (`.ok (some v)` a
parsed structured result, `.ok none` the unresolved marker `undefined`,
`.error` a throw) paired with the upstream requests made. -/
def getLLMResult (service : JValue → UpstreamResp) (accountId : String)
    (prompt : String) : Except String (Option JValue) × List JValue :=
  let reqBody := llmRequestBody prompt
  let resp := service reqBody
  let made := [reqBody]
  if !resp.ok then
    (.error ("LLM call failed " ++ aiUrl accountId ++ " " ++ toString resp.status), made)
  else
    match jsonParse resp.bodyText with
    | none => (.error jsonSyntaxErrorMsg, made)
    | some data =>
      match replyTextOf data with
      | .error e => (.error e, made)
      | .ok text => (.ok (resolveStructured text), made)

end Scraper

/-! ### Concrete instances used by witnesses and counterexamples -/

/-- A request environment in which every remote stage succeeds. -/
def envAllOk : RemoteEnv :=
  ⟨none, none, none, none, none, fun _ => .ok [137], .ok "PAGE TEXT",
    .ok "<html><body>hi</body></html>", fun _ _ => .ok "MODEL REPLY"⟩

/-- Every browser stage succeeds; the model invocation throws. -/
def envAiDown : RemoteEnv :=
  ⟨none, none, none, none, none, fun _ => .ok [137], .ok "PAGE TEXT",
    .ok "<html><body>hi</body></html>", fun _ _ => .error "model service unavailable"⟩

/-- A 20,000-character page text. -/
def bigText : String := String.mk (List.replicate 20000 'a')

/-- Remote stages succeed and the page text is `bigText`. -/
def envBigPage : RemoteEnv :=
  ⟨none, none, none, none, none, fun _ => .ok [137], .ok bigText,
    .ok "<html></html>", fun _ _ => .ok "SUMMARY"⟩

def bodyHtml : String := "\x7b\"url\":\"https://example.com\",\"action\":\"extract_html\"\x7d"

def bodySummarize : String := "\x7b\"url\":\"https://example.com\",\"action\":\"summarize_text\"\x7d"

def bodySummarizeCustom : String :=
  "\x7b\"url\":\"https://example.com\",\"action\":\"summarize_text\",\"model\":\"my/custom-model\"\x7d"

def bodyImageNoPrompt : String := "\x7b\"url\":\"https://example.com\",\"action\":\"analyze_image\"\x7d"

def bodyImageWithPrompt : String :=
  "\x7b\"url\":\"https://example.com\",\"action\":\"analyze_image\",\"prompt\":\"describe\"\x7d"

def bodyBadUrlImage : String := "\x7b\"url\":\"notaurl\",\"action\":\"analyze_image\"\x7d"

/-- A link-analysis environment in which every remote stage succeeds. -/
def lenvAllOk : LinkEnv :=
  ⟨none, none, none, .ok "LINK PAGE TEXT", fun _ _ => .ok "LINK SUMMARY"⟩

/-- Navigation times out inside the try block. -/
def lenvNavFail : LinkEnv :=
  ⟨none, none, some "Navigation timeout of 30000 ms exceeded", .ok "X", fun _ _ => .ok "S"⟩

/-- Browser stages succeed; the model invocation throws. -/
def lenvAiDown : LinkEnv :=
  ⟨none, none, none, .ok "LINK PAGE TEXT", fun _ _ => .error "ai unavailable"⟩

def linkBody : String := "\x7b\"url\":\"https://example.com\"\x7d"

/-- An upstream model service answering 503 to every request. -/
def svcDown : JValue → UpstreamResp := fun _ => ⟨false, 503, ""⟩

/-- An upstream model service answering a fenced JSON reply. -/
def svcFenced : JValue → UpstreamResp := fun _ =>
  ⟨true, 200, "\x7b\"result\":\x7b\"response\":\"```json\\n\x7b\\\"a\\\":1\x7d\\n```\"\x7d\x7d"⟩

/-! ## Shared evaluation lemmas -/

theorem strLength_data (s : String) : s.length = s.data.length := rfl

theorem launchAndNavigate_allOk (env : RemoteEnv) (ro : RenderOptions) (t : Trace)
    (h1 : env.launchThrow = none) (h2 : env.newPageThrow = none)
    (h3 : env.setViewportThrow = none) (h4 : env.gotoThrow = none)
    (h5 : env.waitSelThrow = none) :
    launchAndNavigate env ro t = .ok { t with launches := t.launches + 1 } := by
  unfold launchAndNavigate navigateSteps
  rw [h1, h2, h3, h4, h5]
  cases ro.viewport <;> cases ro.waitForSelector <;> rfl

theorem fetch_to_action (env : RemoteEnv) (body : String) (j : JValue) (req : ValidReq)
    (hb : jsonParse body = some j) (hv : safeParseRequest j = .ok req) :
    Index.fetch env "POST" body =
      (match req.action with
      | .analyze_image => runImage env req
      | .summarize_text => runSummarize env req
      | .extract_html => runHtml env req) := by
  simp [Index.fetch, hb, hv]

theorem runSummarize_eval (env : RemoteEnv) (req : ValidReq) (text : String)
    (h1 : env.launchThrow = none) (h2 : env.newPageThrow = none)
    (h3 : env.setViewportThrow = none) (h4 : env.gotoThrow = none)
    (h5 : env.waitSelThrow = none) (hit : env.innerText = .ok text) :
    runSummarize env req =
      (match env.aiRun textModel (.textPrompt (summarizationPrompt text)) with
      | .error e =>
        catchResult e ⟨1, 0, [(textModel, .textPrompt (summarizationPrompt text))]⟩
      | .ok resp =>
        finishSuccess req (.summary resp textModel)
          ⟨1, 0, [(textModel, .textPrompt (summarizationPrompt text))]⟩) := by
  unfold runSummarize
  rw [launchAndNavigate_allOk env req.renderOptions Trace.start h1 h2 h3 h4 h5, hit]
  rfl

theorem runHtml_eval (env : RemoteEnv) (req : ValidReq) (html : String)
    (h1 : env.launchThrow = none) (h2 : env.newPageThrow = none)
    (h3 : env.setViewportThrow = none) (h4 : env.gotoThrow = none)
    (h5 : env.waitSelThrow = none) (hct : env.content = .ok html) :
    runHtml env req = finishSuccess req (.html html) ⟨1, 0, []⟩ := by
  unfold runHtml
  rw [launchAndNavigate_allOk env req.renderOptions Trace.start h1 h2 h3 h4 h5, hct]
  rfl

theorem runImage_eval (env : RemoteEnv) (req : ValidReq) (bytes : List Nat)
    (h1 : env.launchThrow = none) (h2 : env.newPageThrow = none)
    (h3 : env.setViewportThrow = none) (h4 : env.gotoThrow = none)
    (h5 : env.waitSelThrow = none)
    (hscr : env.screenshot req.renderOptions.fullPage = .ok bytes) :
    runImage env req =
      (match env.aiRun req.model (.image (req.prompt.getD "") bytes) with
      | .error e =>
        catchResult e ⟨1, 0, [(req.model, .image (req.prompt.getD "") bytes)]⟩
      | .ok resp =>
        finishSuccess req (.image resp)
          ⟨1, 0, [(req.model, .image (req.prompt.getD "") bytes)]⟩) := by
  unfold runImage
  rw [launchAndNavigate_allOk env req.renderOptions Trace.start h1 h2 h3 h4 h5, hscr]
  rfl

theorem runSummarize_extractFail (env : RemoteEnv) (req : ValidReq) (m : String)
    (h1 : env.launchThrow = none) (h2 : env.newPageThrow = none)
    (h3 : env.setViewportThrow = none) (h4 : env.gotoThrow = none)
    (h5 : env.waitSelThrow = none) (hit : env.innerText = .error m) :
    runSummarize env req = catchResult m ⟨1, 0, []⟩ := by
  unfold runSummarize
  rw [launchAndNavigate_allOk env req.renderOptions Trace.start h1 h2 h3 h4 h5, hit]
  rfl

/-! ## Claim C4 -/

/-- Claim C4: page text longer than the documented bound is embedded in the
model prompt truncated to exactly that bound — `substring(0, 8000)` for the
`summarize_text` prompt (the recorded model invocation carries the fixed
scaffolding plus exactly the first 8,000 characters), `substring(0, 10000)`
for the link-analysis variant — and truncation is a total operation (it
never raises; short inputs pass through whole). -/
theorem c4_truncation_exact :
    (∀ text : String, (jsSubstring text 8000).length = min 8000 text.length) ∧
    (∀ (env : RemoteEnv) (body : String) (j : JValue) (req : ValidReq) (text : String),
      jsonParse body = some j → safeParseRequest j = .ok req →
      req.action = .summarize_text →
      env.launchThrow = none → env.newPageThrow = none → env.setViewportThrow = none →
      env.gotoThrow = none → env.waitSelThrow = none → env.innerText = .ok text →
      8000 < text.length →
      (Index.fetch env "POST" body).trace.aiCalls =
        [(textModel, .textPrompt (summarizationPromptHeader ++ jsSubstring text 8000))] ∧
      (jsSubstring text 8000).length = 8000 ∧
      (jsSubstring text 8000).data = text.data.take 8000) ∧
    (∀ s : String, 10000 < s.length →
      linkTruncate s = jsSubstring s 10000 ++ "..." ∧ (jsSubstring s 10000).length = 10000) ∧
    (∀ s : String, s.length ≤ 10000 → linkTruncate s = s) := by
  refine ⟨?_, ?_, ?_, ?_⟩
  · intro text
    unfold jsSubstring
    rw [String.length_mk, List.length_take, strLength_data]
  · intro env body j req text hb hv ha h1 h2 h3 h4 h5 hit hlen
    have hf : Index.fetch env "POST" body = runSummarize env req := by
      rw [fetch_to_action env body j req hb hv, ha]
    rw [strLength_data] at hlen
    refine ⟨?_, ?_, ?_⟩
    · rw [hf, runSummarize_eval env req text h1 h2 h3 h4 h5 hit]
      rcases hai : env.aiRun textModel (.textPrompt (summarizationPrompt text)) with e | r <;>
        simp [hai, catchResult, finishSuccess, summarizationPrompt]
    · unfold jsSubstring
      rw [String.length_mk, List.length_take]
      omega
    · rfl
  · intro s hlen
    have hgt : 10000 < s.length := hlen
    rw [strLength_data] at hlen
    constructor
    · unfold linkTruncate
      rw [if_pos hgt]
    · unfold jsSubstring
      rw [String.length_mk, List.length_take]
      omega
  · intro s hlen
    unfold linkTruncate
    rw [if_neg (by omega)]

/-- Witness for C4, at a 20,000-character page: the recorded summarization
prompt carries exactly the first 8,000 characters. -/
theorem c4_truncation_exact_witness :
    (Index.fetch envBigPage "POST" bodySummarize).trace.aiCalls =
      [(textModel, .textPrompt (summarizationPromptHeader ++ jsSubstring bigText 8000))] ∧
    (jsSubstring bigText 8000).length = 8000 :=
  ⟨(c4_truncation_exact.2.1 envBigPage bodySummarize _ _ bigText rfl rfl rfl rfl rfl rfl rfl
      rfl rfl (by rw [bigText, String.length_mk, List.length_replicate]; norm_num)).1,
    (c4_truncation_exact.2.1 envBigPage bodySummarize _ _ bigText rfl rfl rfl rfl rfl rfl rfl
      rfl rfl (by rw [bigText, String.length_mk, List.length_replicate]; norm_num)).2.1⟩

/-! ## Claim C5 -/

/-- Claim C5 counterexample: the `summarize_text` path truncates without any
marking — a 20,000-character page text and the complete 8,000-character text
sharing its prefix produce the **identical** model prompt, so the truncated
input is not distinguishable from a complete-document input on this
truncating path, refuting the claim as stated. -/
theorem c5_counterexample :
    summarizationPrompt bigText = summarizationPrompt (String.mk (List.replicate 8000 'a')) ∧
    bigText.length ≠ (String.mk (List.replicate 8000 'a')).length := by
  constructor
  · unfold summarizationPrompt jsSubstring bigText
    rw [List.take_replicate, List.take_replicate]
    norm_num [Nat.min_def]
  · rw [bigText, String.length_mk, String.length_mk, List.length_replicate,
      List.length_replicate]
    norm_num

/-- Claim C5, amended: only the link-analysis truncating path marks its
truncated input — it appends `"..."`, making every truncated embedding
exactly 10,003 characters while a complete-document embedding stays at or
below 10,000 — whereas the `summarize_text` truncating path is silent: two
different page texts, one complete and one truncated, can produce the same
prompt. -/
theorem c5_truncation_marking :
    (∀ s : String, 10000 < s.length →
      linkTruncate s = jsSubstring s 10000 ++ "..." ∧ (linkTruncate s).length = 10003) ∧
    (∀ s : String, s.length ≤ 10000 →
      linkTruncate s = s ∧ (linkTruncate s).length ≤ 10000) ∧
    (∃ t1 t2 : String, t1.length ≤ 8000 ∧ 8000 < t2.length ∧
      summarizationPrompt t1 = summarizationPrompt t2) := by
  refine ⟨?_, ?_, ?_⟩
  · intro s hlen
    have hgt : 10000 < s.length := hlen
    rw [strLength_data] at hlen
    have he : linkTruncate s = jsSubstring s 10000 ++ "..." := by
      unfold linkTruncate
      rw [if_pos hgt]
    refine ⟨he, ?_⟩
    rw [he, String.length_append]
    have hdots : ("..." : String).length = 3 := rfl
    rw [hdots]
    unfold jsSubstring
    rw [String.length_mk, List.length_take]
    omega
  · intro s hlen
    have he : linkTruncate s = s := by
      unfold linkTruncate
      rw [if_neg (by omega)]
    exact ⟨he, by rw [he]; exact hlen⟩
  · refine ⟨String.mk (List.replicate 8000 'a'), bigText,
      by rw [String.length_mk, List.length_replicate],
      by rw [bigText, String.length_mk, List.length_replicate]; norm_num, ?_⟩
    unfold summarizationPrompt jsSubstring bigText
    rw [List.take_replicate, List.take_replicate]
    norm_num [Nat.min_def]

/-- Witness for the amended C5: a 10,001-character link-analysis text gets
the `"..."` marker; a short one passes through unmarked. -/
theorem c5_truncation_marking_witness :
    linkTruncate (String.mk (List.replicate 10001 'a')) =
      jsSubstring (String.mk (List.replicate 10001 'a')) 10000 ++ "..." ∧
    linkTruncate "short" = "short" :=
  ⟨(c5_truncation_marking.1 _
      (by rw [String.length_mk, List.length_replicate]; norm_num)).1,
    (c5_truncation_marking.2.1 "short" (by decide)).1⟩

/-! ## Claim C7 -/

/-- Claim C7: for every valid `extract_html` request whose remote stages
succeed, the response carries the page's full serialized markup unmodified
(no truncation), no model invocation is recorded, and `metadata.modelUsed`
is the request's model (caller-supplied or the zod default). -/
theorem c7_extract_html (env : RemoteEnv) (body : String) (j : JValue) (req : ValidReq)
    (html : String)
    (hb : jsonParse body = some j) (hv : safeParseRequest j = .ok req)
    (ha : req.action = .extract_html)
    (h1 : env.launchThrow = none) (h2 : env.newPageThrow = none)
    (h3 : env.setViewportThrow = none) (h4 : env.gotoThrow = none)
    (h5 : env.waitSelThrow = none) (hct : env.content = .ok html) :
    Index.fetch env "POST" body =
      ⟨200, .success (.html html) ⟨req.url, .extract_html, req.model⟩, ⟨1, 1, []⟩⟩ := by
  have hf : Index.fetch env "POST" body = runHtml env req := by
    rw [fetch_to_action env body j req hb hv, ha]
  rw [hf, runHtml_eval env req html h1 h2 h3 h4 h5 hct]
  simp [finishSuccess, dataModelOrReq, ha]

/-- Witness for C7 at a concrete request and page. -/
theorem c7_extract_html_witness :
    Index.fetch envAllOk "POST" bodyHtml =
      ⟨200, .success (.html "<html><body>hi</body></html>")
        ⟨"https://example.com", .extract_html, defaultModel⟩, ⟨1, 1, []⟩⟩ :=
  c7_extract_html envAllOk bodyHtml _ _ _ rfl rfl rfl rfl rfl rfl rfl rfl rfl

/-! ## Claim C10 -/

/-- Claim C10: every valid `summarize_text` request runs inference on the
fixed text model `@cf/meta/llama-2-7b-chat-int8` — the recorded invocation
uses it no matter what `model` the caller supplied — and the response's
`metadata.modelUsed` reports that fixed model, not the request's. -/
theorem c10_fixed_text_model (env : RemoteEnv) (body : String) (j : JValue)
    (req : ValidReq) (text resp : String)
    (hb : jsonParse body = some j) (hv : safeParseRequest j = .ok req)
    (ha : req.action = .summarize_text)
    (h1 : env.launchThrow = none) (h2 : env.newPageThrow = none)
    (h3 : env.setViewportThrow = none) (h4 : env.gotoThrow = none)
    (h5 : env.waitSelThrow = none) (hit : env.innerText = .ok text)
    (hai : env.aiRun textModel (.textPrompt (summarizationPrompt text)) = .ok resp) :
    Index.fetch env "POST" body =
      ⟨200, .success (.summary resp textModel) ⟨req.url, .summarize_text, textModel⟩,
        ⟨1, 1, [(textModel, .textPrompt (summarizationPrompt text))]⟩⟩ := by
  have hf : Index.fetch env "POST" body = runSummarize env req := by
    rw [fetch_to_action env body j req hb hv, ha]
  rw [hf, runSummarize_eval env req text h1 h2 h3 h4 h5 hit, hai]
  simp [finishSuccess, dataModelOrReq, ha, textModel]

/-- Witness for C10 at a request that supplies its own `model`: the
invocation and the reported `modelUsed` still use the fixed text model. -/
theorem c10_fixed_text_model_witness :
    Index.fetch envAllOk "POST" bodySummarizeCustom =
      ⟨200, .success (.summary "MODEL REPLY" textModel)
        ⟨"https://example.com", .summarize_text, textModel⟩,
        ⟨1, 1, [(textModel, .textPrompt (summarizationPrompt "PAGE TEXT"))]⟩⟩ :=
  c10_fixed_text_model envAllOk bodySummarizeCustom _ _ _ _ rfl rfl rfl rfl rfl rfl rfl rfl
    rfl rfl

/-! ## Claim C3 -/

/-- Claim C3 counterexample: a request with action `analyze_image` and no
`prompt` field whose `url` is invalid — validation fails (status 400, no
session acquired), but the only field error names `url`: zod runs the
`.refine` that produces the `prompt` issue only when the base object parse
is clean, so no error path names "prompt" here, refuting the claim as
universally stated. -/
theorem c3_counterexample :
    Index.fetch envAllOk "POST" bodyBadUrlImage =
      ⟨400, .validationError "Invalid request body."
        [⟨["url"], "A valid URL is required."⟩], Trace.start⟩ ∧
    ∀ i ∈ [(⟨["url"], "A valid URL is required."⟩ : ZodIssue)], i.path ≠ ["prompt"] :=
  ⟨rfl, by decide⟩

/-- Claim C3, amended: for every request whose body is a JSON object with
action `analyze_image`, no `prompt` field, and every **other** field
schema-valid, validation fails with exactly the refinement issue, whose path
names "prompt"; the handler returns 400 and no browser session is acquired
and no model invoked (the trace is empty) — validation strictly precedes any
remote call. (Without the other-fields-valid proviso the field error can
name a different field instead.) -/
theorem c3_prompt_required (env : RemoteEnv) (body : String)
    (fs : List (String × JValue)) (u m : String) (ro : RenderOptions)
    (hb : jsonParse body = some (.obj fs))
    (hu : checkUrl (.obj fs) = .ok u)
    (hactf : checkAction (.obj fs) = .ok .analyze_image)
    (hp : (JValue.obj fs).getField "prompt" = none)
    (hm : checkModel (.obj fs) = .ok m)
    (hro : checkRenderOptions (.obj fs) = .ok ro) :
    Index.fetch env "POST" body =
      ⟨400, .validationError "Invalid request body." [promptRequiredIssue], Trace.start⟩ ∧
    promptRequiredIssue.path = ["prompt"] := by
  have hpc : checkPrompt (.obj fs) = .ok none := by unfold checkPrompt; rw [hp]
  have hv : safeParseRequest (.obj fs) = .error [promptRequiredIssue] := by
    unfold safeParseRequest
    rw [hu, hactf, hpc, hm, hro]
    simp
  exact ⟨by simp [Index.fetch, hb, hv], rfl⟩

/-- Witness for the amended C3 at a concrete promptless request. -/
theorem c3_prompt_required_witness :
    Index.fetch envAllOk "POST" bodyImageNoPrompt =
      ⟨400, .validationError "Invalid request body." [promptRequiredIssue], Trace.start⟩ :=
  (c3_prompt_required envAllOk bodyImageNoPrompt _ _ _ _ rfl rfl rfl rfl rfl rfl).1

/-! ## Claim C6 -/

/-- Claim C6 counterexample: with the model identifier absent, the
substituted default is the **same** string `"@cf/llava-1.5-7b-hf"` for a
text action (`summarize_text`) as for the image-analysis action — there is
no distinct per-action default at substitution time, refuting the claim. -/
theorem c6_counterexample :
    safeParseRequest (.obj [("url", .str "https://example.com"),
        ("action", .str "summarize_text")]) =
      .ok ⟨"https://example.com", .summarize_text, none, "@cf/llava-1.5-7b-hf",
        ⟨none, false, none⟩⟩ ∧
    safeParseRequest (.obj [("url", .str "https://example.com"),
        ("action", .str "analyze_image"), ("prompt", .str "describe")]) =
      .ok ⟨"https://example.com", .analyze_image, some "describe", "@cf/llava-1.5-7b-hf",
        ⟨none, false, none⟩⟩ :=
  ⟨rfl, rfl⟩

/-- Claim C6, amended: when the model identifier is absent, validation
substitutes the single default `@cf/llava-1.5-7b-hf` regardless of the
action (the `summarize_text` arm later overrides the effective inference
model with its fixed text model, and `extract_html` reports this same
default untouched). -/
theorem c6_default_model (fs : List (String × JValue)) (u : String) (a : ActionKind)
    (p : Option String) (ro : RenderOptions)
    (hm : (JValue.obj fs).getField "model" = none)
    (hu : checkUrl (.obj fs) = .ok u)
    (hactf : checkAction (.obj fs) = .ok a)
    (hp : checkPrompt (.obj fs) = .ok p)
    (hro : checkRenderOptions (.obj fs) = .ok ro)
    (href : ¬(a = .analyze_image ∧ (p = none ∨ p = some ""))) :
    safeParseRequest (.obj fs) = .ok ⟨u, a, p, defaultModel, ro⟩ := by
  have hmc : checkModel (.obj fs) = .ok defaultModel := by unfold checkModel; rw [hm]
  unfold safeParseRequest
  rw [hu, hactf, hp, hmc, hro]
  simp [href]

/-- Witness for the amended C6 at a model-less `summarize_text` request. -/
theorem c6_default_model_witness :
    safeParseRequest (.obj [("url", .str "https://example.com"),
        ("action", .str "summarize_text")]) =
      .ok ⟨"https://example.com", .summarize_text, none, defaultModel, ⟨none, false, none⟩⟩ :=
  c6_default_model _ _ _ _ _ rfl rfl rfl rfl rfl (by decide)

/-! ## Claim C8 -/

/-- Claim C8 counterexample: a request body that is malformed (not JSON at
all) does **not** get the 400 validation envelope with details — the
`request.json()` throw lands in the outer catch and is answered with the
500 runtime envelope, refuting the claim as stated. -/
theorem c8_counterexample :
    Index.fetch envAllOk "POST" "not json" =
      ⟨500, .runtimeError ("An internal server error occurred: " ++ jsonSyntaxErrorMsg),
        Trace.start⟩ ∧
    (500 : Nat) ≠ 400 :=
  ⟨rfl, by decide⟩

/-- Claim C8, amended: a body that parses as JSON but fails schema
validation gets the `\x7bsuccess: false, error: \x7bmessage, details\x7d\x7d`
envelope at status 400; a body that is not valid JSON throws before
validation and is answered — like every runtime failure after validation
(browser provisioning or inference, shown here) — with the
`\x7bsuccess: false, error: \x7bmessage\x7d\x7d` envelope at status 500 carrying the
thrown message; no fatal category is silently swallowed. -/
theorem c8_error_envelopes :
    (∀ (env : RemoteEnv) (body : String) (j : JValue) (issues : List ZodIssue),
      jsonParse body = some j → safeParseRequest j = .error issues →
      Index.fetch env "POST" body =
        ⟨400, .validationError "Invalid request body." issues, Trace.start⟩) ∧
    (∀ (env : RemoteEnv) (body : String), jsonParse body = none →
      Index.fetch env "POST" body =
        ⟨500, .runtimeError ("An internal server error occurred: " ++ jsonSyntaxErrorMsg),
          Trace.start⟩) ∧
    (∀ (env : RemoteEnv) (body : String) (j : JValue) (req : ValidReq) (msg : String),
      jsonParse body = some j → safeParseRequest j = .ok req →
      env.launchThrow = some msg →
      Index.fetch env "POST" body =
        ⟨500, .runtimeError ("An internal server error occurred: " ++ msg), Trace.start⟩) ∧
    (∀ (env : RemoteEnv) (body : String) (j : JValue) (req : ValidReq) (text msg : String),
      jsonParse body = some j → safeParseRequest j = .ok req →
      req.action = .summarize_text →
      env.launchThrow = none → env.newPageThrow = none → env.setViewportThrow = none →
      env.gotoThrow = none → env.waitSelThrow = none → env.innerText = .ok text →
      env.aiRun textModel (.textPrompt (summarizationPrompt text)) = .error msg →
      Index.fetch env "POST" body =
        ⟨500, .runtimeError ("An internal server error occurred: " ++ msg),
          ⟨1, 0, [(textModel, .textPrompt (summarizationPrompt text))]⟩⟩) := by
  refine ⟨?_, ?_, ?_, ?_⟩
  · intro env body j issues hb hv
    simp [Index.fetch, hb, hv]
  · intro env body hb
    simp [Index.fetch, hb, catchResult]
  · intro env body j req msg hb hv hl
    rw [fetch_to_action env body j req hb hv]
    have hland : launchAndNavigate env req.renderOptions Trace.start =
        .error (msg, Trace.start) := by
      unfold launchAndNavigate
      rw [hl]
    cases req.action <;> simp [runImage, runSummarize, runHtml, hland, catchResult]
  · intro env body j req text msg hb hv ha h1 h2 h3 h4 h5 hit hai
    have hf : Index.fetch env "POST" body = runSummarize env req := by
      rw [fetch_to_action env body j req hb hv, ha]
    rw [hf, runSummarize_eval env req text h1 h2 h3 h4 h5 hit, hai]
    simp [catchResult]

/-- Witness for the amended C8: a schema-invalid JSON body gets the 400
details envelope; a launch failure gets the 500 message envelope. -/
theorem c8_error_envelopes_witness :
    Index.fetch envAllOk "POST" bodyBadUrlImage =
      ⟨400, .validationError "Invalid request body."
        [⟨["url"], "A valid URL is required."⟩], Trace.start⟩ ∧
    Index.fetch ⟨some "browser down", none, none, none, none, fun _ => .ok [],
        .ok "", .ok "", fun _ _ => .ok ""⟩ "POST" bodyHtml =
      ⟨500, .runtimeError ("An internal server error occurred: " ++ "browser down"),
        Trace.start⟩ :=
  ⟨c8_error_envelopes.1 envAllOk bodyBadUrlImage _ _ rfl rfl,
    c8_error_envelopes.2.2.1 _ bodyHtml _ _ "browser down" rfl rfl rfl⟩

/-! ## Claim C1 -/

/-- Claim C1 counterexample: a valid `summarize_text` request whose model
invocation throws — the handler produces the 500 error response with the
browser session acquired once and **never released** (`closes = 0`),
refuting the claim that the session is closed before any error response. -/
theorem c1_counterexample :
    (Index.fetch envAiDown "POST" bodySummarize).status = 500 ∧
    (Index.fetch envAiDown "POST" bodySummarize).trace.launches = 1 ∧
    (Index.fetch envAiDown "POST" bodySummarize).trace.closes = 0 :=
  ⟨rfl, rfl, rfl⟩

/-- Claim C1, amended: on every successful request each handler acquires
exactly one browser session and releases exactly one; the link-analysis
handler also releases the session before surfacing navigation/extraction
errors (its `finally`) and has already released it when inference fails;
but in the main handler an extraction or inference throw after acquisition
produces the error response **without** releasing the session — the session
leaks (`closes = 0`). -/
theorem c1_session_release :
    (∀ (env : RemoteEnv) (body : String) (j : JValue) (req : ValidReq),
      jsonParse body = some j → safeParseRequest j = .ok req →
      env.launchThrow = none → env.newPageThrow = none → env.setViewportThrow = none →
      env.gotoThrow = none → env.waitSelThrow = none →
      (∀ b, ∃ r, env.screenshot b = .ok r) →
      (∃ s, env.innerText = .ok s) →
      (∃ s, env.content = .ok s) →
      (∀ mdl inp, ∃ r, env.aiRun mdl inp = .ok r) →
      (Index.fetch env "POST" body).trace.launches = 1 ∧
      (Index.fetch env "POST" body).trace.closes = 1) ∧
    (∀ (env : RemoteEnv) (body : String) (j : JValue) (req : ValidReq) (m : String),
      jsonParse body = some j → safeParseRequest j = .ok req →
      req.action = .summarize_text →
      env.launchThrow = none → env.newPageThrow = none → env.setViewportThrow = none →
      env.gotoThrow = none → env.waitSelThrow = none → env.innerText = .error m →
      (Index.fetch env "POST" body).status = 500 ∧
      (Index.fetch env "POST" body).trace.launches = 1 ∧
      (Index.fetch env "POST" body).trace.closes = 0) ∧
    (∀ (env : RemoteEnv) (body : String) (j : JValue) (req : ValidReq) (text m : String),
      jsonParse body = some j → safeParseRequest j = .ok req →
      req.action = .summarize_text →
      env.launchThrow = none → env.newPageThrow = none → env.setViewportThrow = none →
      env.gotoThrow = none → env.waitSelThrow = none → env.innerText = .ok text →
      env.aiRun textModel (.textPrompt (summarizationPrompt text)) = .error m →
      (Index.fetch env "POST" body).status = 500 ∧
      (Index.fetch env "POST" body).trace.launches = 1 ∧
      (Index.fetch env "POST" body).trace.closes = 0) ∧
    (∀ (env : LinkEnv) (body : String) (j : JValue) (u m : String),
      jsonParse body = some j → linkUrlOf j = some u → u ≠ "" → isValidUrl u = true →
      env.launchThrow = none → env.newPageThrow = none → env.gotoThrow = some m →
      Worker.analyzeLink env body =
        ⟨500, .errorOnly ("Failed to load or extract content from URL: " ++ m),
          ⟨1, 1, []⟩⟩) ∧
    (∀ (env : LinkEnv) (body : String) (j : JValue) (u raw m : String),
      jsonParse body = some j → linkUrlOf j = some u → u ≠ "" → isValidUrl u = true →
      env.launchThrow = none → env.newPageThrow = none → env.gotoThrow = none →
      env.bodyText = .ok raw →
      env.aiRun linkModel (.chat linkSystemMsg (linkPromptHeader ++ linkTruncate raw)) =
        .error m →
      Worker.analyzeLink env body =
        ⟨500, .errorDetails "Failed to analyze link" m,
          ⟨1, 1, [(linkModel, .chat linkSystemMsg (linkPromptHeader ++ linkTruncate raw))]⟩⟩) ∧
    (∀ (env : LinkEnv) (body : String) (j : JValue) (u raw resp : String),
      jsonParse body = some j → linkUrlOf j = some u → u ≠ "" → isValidUrl u = true →
      env.launchThrow = none → env.newPageThrow = none → env.gotoThrow = none →
      env.bodyText = .ok raw →
      env.aiRun linkModel (.chat linkSystemMsg (linkPromptHeader ++ linkTruncate raw)) =
        .ok resp →
      Worker.analyzeLink env body =
        ⟨200, .analysis resp u,
          ⟨1, 1, [(linkModel, .chat linkSystemMsg (linkPromptHeader ++ linkTruncate raw))]⟩⟩) := by
  refine ⟨?_, ?_, ?_, ?_, ?_, ?_⟩
  · intro env body j req hb hv h1 h2 h3 h4 h5 hscr hit hct hai
    rw [fetch_to_action env body j req hb hv]
    cases hact : req.action
    · obtain ⟨bytes, hscr2⟩ := hscr req.renderOptions.fullPage
      rw [runImage_eval env req bytes h1 h2 h3 h4 h5 hscr2]
      obtain ⟨r, hair⟩ := hai req.model (.image (req.prompt.getD "") bytes)
      rw [hair]
      simp [finishSuccess]
    · obtain ⟨text, hit2⟩ := hit
      rw [runSummarize_eval env req text h1 h2 h3 h4 h5 hit2]
      obtain ⟨r, hair⟩ := hai textModel (.textPrompt (summarizationPrompt text))
      rw [hair]
      simp [finishSuccess]
    · obtain ⟨html, hct2⟩ := hct
      rw [runHtml_eval env req html h1 h2 h3 h4 h5 hct2]
      simp [finishSuccess]
  · intro env body j req m hb hv ha h1 h2 h3 h4 h5 hit
    have hf : Index.fetch env "POST" body = runSummarize env req := by
      rw [fetch_to_action env body j req hb hv, ha]
    rw [hf, runSummarize_extractFail env req m h1 h2 h3 h4 h5 hit]
    exact ⟨rfl, rfl, rfl⟩
  · intro env body j req text m hb hv ha h1 h2 h3 h4 h5 hit hai
    have hf : Index.fetch env "POST" body = runSummarize env req := by
      rw [fetch_to_action env body j req hb hv, ha]
    rw [hf, runSummarize_eval env req text h1 h2 h3 h4 h5 hit, hai]
    exact ⟨rfl, rfl, rfl⟩
  · intro env body j u m hb hurl hne hval h1 h2 hg
    simp [Worker.analyzeLink, hb, hurl, hne, hval, h1, h2, hg]
  · intro env body j u raw m hb hurl hne hval h1 h2 hg hraw hai
    simp [Worker.analyzeLink, hb, hurl, hne, hval, h1, h2, hg, hraw, hai]
  · intro env body j u raw resp hb hurl hne hval h1 h2 hg hraw hai
    simp [Worker.analyzeLink, hb, hurl, hne, hval, h1, h2, hg, hraw, hai]

/-- Witness for the amended C1: acquire/release parity on an all-success
request to the main handler. -/
theorem c1_session_release_witness :
    (Index.fetch envAllOk "POST" bodyHtml).trace.launches = 1 ∧
    (Index.fetch envAllOk "POST" bodyHtml).trace.closes = 1 :=
  c1_session_release.1 envAllOk bodyHtml _ _ rfl rfl rfl rfl rfl rfl rfl
    (fun _ => ⟨[137], rfl⟩) ⟨"PAGE TEXT", rfl⟩ ⟨"<html><body>hi</body></html>", rfl⟩
    (fun _ _ => ⟨"MODEL REPLY", rfl⟩)

/-! ## Claim C9 -/

/-- Claim C9: `getLLMResult` sends exactly one upstream request on every
execution path — a failed invocation is never retried — and a non-success
upstream response is surfaced as a thrown inference error whose message
carries the upstream status code. -/
theorem c9_single_inference_call :
    (∀ (service : JValue → UpstreamResp) (accountId prompt : String),
      (Scraper.getLLMResult service accountId prompt).2 = [llmRequestBody prompt]) ∧
    (∀ (service : JValue → UpstreamResp) (accountId prompt : String),
      (service (llmRequestBody prompt)).ok = false →
      (Scraper.getLLMResult service accountId prompt).1 =
        .error ("LLM call failed " ++ aiUrl accountId ++ " " ++
          toString (service (llmRequestBody prompt)).status)) := by
  constructor
  · intro service accountId prompt
    unfold Scraper.getLLMResult
    cases hok : (service (llmRequestBody prompt)).ok
    · simp [hok]
    · simp [hok]
      cases hjp : jsonParse (service (llmRequestBody prompt)).bodyText
      · simp [hjp]
      · next d =>
        cases hrt : replyTextOf d <;> simp [hjp, hrt]
  · intro service accountId prompt hok
    unfold Scraper.getLLMResult
    simp [hok]

/-- Witness for C9 at a service that answers 503. -/
theorem c9_single_inference_call_witness :
    (Scraper.getLLMResult svcDown "acct" "extract the title").1 =
      .error ("LLM call failed " ++ aiUrl "acct" ++ " " ++ toString 503) ∧
    (Scraper.getLLMResult svcDown "acct" "extract the title").2 =
      [llmRequestBody "extract the title"] :=
  ⟨c9_single_inference_call.2 svcDown "acct" "extract the title" rfl,
    c9_single_inference_call.1 svcDown "acct" "extract the title"⟩

/-! ## Claim C2 -/

theorem fenceHead_cons_false {c : Char} (xs : List Char) (h : ¬ c = '`') :
    fenceHead (c :: xs) = false := by
  rcases xs with _ | ⟨b, xs⟩
  · rfl
  · rcases xs with _ | ⟨d, xs⟩
    · rfl
    · simp [fenceHead, h]

theorem tryMatchAt_cons_false {c : Char} (xs : List Char) (h : ¬ c = '`') :
    tryMatchAt (c :: xs) = none := by
  simp [tryMatchAt, fenceHead_cons_false xs h]

theorem scanFence_append_clean (l rest : List Char) (h : ∀ c ∈ l, ¬ c = '`') :
    scanFence (l ++ rest) = scanFence rest := by
  induction l with
  | nil => rfl
  | cons c l ih =>
    have hc := h c (by simp)
    have hl : ∀ x ∈ l, ¬ x = '`' := fun x hx => h x (by simp [hx])
    simp [scanFence, tryMatchAt_cons_false _ hc, ih hl]

theorem splitAtFence_clean_prefix (l rest : List Char) (h : ∀ c ∈ l, ¬ c = '`')
    (hf : fenceHead rest = true) :
    splitAtFence (l ++ rest) = some (l, rest) := by
  induction l with
  | nil =>
    rcases rest with _ | ⟨c, rest⟩
    · simp [fenceHead] at hf
    · simp [splitAtFence, hf]
  | cons c l ih =>
    have hc := h c (by simp)
    have hl : ∀ x ∈ l, ¬ x = '`' := fun x hx => h x (by simp [hx])
    simp [splitAtFence, fenceHead_cons_false _ hc, ih hl]

theorem jsTrim_cons_ws {c : Char} (l : List Char) (h : isJsWs c = true) :
    jsTrim (c :: l) = jsTrim l := by
  simp [jsTrim, List.dropWhile_cons, h]

theorem jsTrim_concat_ws {c : Char} (l : List Char) (h : isJsWs c = true) :
    jsTrim (l ++ [c]) = jsTrim l := by
  unfold jsTrim
  rw [List.dropWhile_append]
  by_cases he : (l.dropWhile isJsWs).isEmpty
  · have hl : l.dropWhile isJsWs = [] := by
      rwa [List.isEmpty_iff] at he
    simp [he, hl, List.dropWhile_cons, h]
  · rw [if_neg he]
    rw [List.reverse_append]
    simp [List.dropWhile_cons, h]

theorem scanFence_none_of_no_fence (cs : List Char) (h : hasFence cs = false) :
    scanFence cs = none := by
  induction cs with
  | nil => rfl
  | cons c rest ih =>
    have hb : fenceHead (c :: rest) = false ∧ hasFence rest = false := by
      simpa [hasFence] using h
    simp [scanFence, tryMatchAt, hb.1, ih hb.2]

/-- Claim C2: structured-result resolution takes the interior of the first
complete triple-backtick fenced block (optionally tagged `json`, surrounding
whitespace stripped) when one exists, otherwise the whole reply, and parses
it as JSON: a fenced JSON object amid prose resolves to that object, a
bare-JSON reply resolves to the parsed value, and a reply with no valid JSON
resolves to the explicit unresolved marker (`none` — the function's
`undefined` fall-through) rather than a raised error. -/
theorem c2_structured_resolution :
    resolveStructured "prefix ```json\n\x7b\"a\":1\x7d\n``` suffix" =
      some (.obj [("a", .num 1 0)]) ∧
    resolveStructured "\x7b\"a\":1\x7d" = some (.obj [("a", .num 1 0)]) ∧
    resolveStructured "I cannot help with that" = none ∧
    (∀ pre inner post : String,
      (∀ c ∈ pre.data, ¬ c = '`') → (∀ c ∈ inner.data, ¬ c = '`') →
      llmCandidate (pre ++ "```json\n" ++ inner ++ "\n```" ++ post) =
        String.mk (jsTrim inner.data) ∧
      resolveStructured (pre ++ "```json\n" ++ inner ++ "\n```" ++ post) =
        jsonParse (String.mk (jsTrim inner.data))) ∧
    (∀ text : String, hasFence text.data = false →
      llmCandidate text = text ∧ resolveStructured text = jsonParse text) := by
  refine ⟨rfl, rfl, rfl, ?_, ?_⟩
  · intro pre inner post hpre hinner
    have hdata : (pre ++ "```json\n" ++ inner ++ "\n```" ++ post).data =
        pre.data ++ ('`' :: '`' :: '`' :: 'j' :: 's' :: 'o' :: 'n' :: '\n' ::
          (inner.data ++ ('\n' :: '`' :: '`' :: '`' :: post.data))) := by
      simp only [String.data_append, List.append_assoc]
      rfl
    have hsplit : splitAtFence ('\n' :: (inner.data ++ ('\n' :: '`' :: '`' :: '`' :: post.data))) =
        some ('\n' :: inner.data ++ ['\n'], '`' :: '`' :: '`' :: post.data) := by
      have hrearr : '\n' :: (inner.data ++ ('\n' :: '`' :: '`' :: '`' :: post.data)) =
          ('\n' :: inner.data ++ ['\n']) ++ ('`' :: '`' :: '`' :: post.data) := by
        simp
      rw [hrearr]
      refine splitAtFence_clean_prefix _ _ ?_ (by simp [fenceHead])
      intro c hc
      simp at hc
      rcases hc with hc | hc | hc
      · subst hc; decide
      · exact hinner c hc
      · subst hc; decide
    have hscan : scanFence ((pre ++ "```json\n" ++ inner ++ "\n```" ++ post).data) =
        some (jsTrim inner.data) := by
      rw [hdata, scanFence_append_clean pre.data _ hpre]
      show (match tryMatchAt ('`' :: '`' :: '`' :: 'j' :: 's' :: 'o' :: 'n' :: '\n' ::
          (inner.data ++ ('\n' :: '`' :: '`' :: '`' :: post.data))) with
        | some r => some r
        | none => scanFence ('`' :: '`' :: 'j' :: 's' :: 'o' :: 'n' :: '\n' ::
            (inner.data ++ ('\n' :: '`' :: '`' :: '`' :: post.data)))) = _
      rw [show tryMatchAt ('`' :: '`' :: '`' :: 'j' :: 's' :: 'o' :: 'n' :: '\n' ::
          (inner.data ++ ('\n' :: '`' :: '`' :: '`' :: post.data))) =
          (match splitAtFence ('\n' :: (inner.data ++ ('\n' :: '`' :: '`' :: '`' :: post.data))) with
          | some (interior, _) => some (jsTrim interior)
          | none => none) from rfl]
      rw [hsplit]
      have htrim : jsTrim ('\n' :: inner.data ++ ['\n']) = jsTrim inner.data := by
        have h1 : ('\n' :: inner.data) ++ ['\n'] = '\n' :: (inner.data ++ ['\n']) := by simp
        rw [h1, jsTrim_cons_ws _ (by rfl), jsTrim_concat_ws _ (by rfl)]
      show some (jsTrim ('\n' :: inner.data ++ ['\n'])) = some (jsTrim inner.data)
      rw [htrim]
    constructor
    · unfold llmCandidate
      rw [hscan]
    · unfold resolveStructured llmCandidate
      rw [hscan]
  · intro text h
    have hc : llmCandidate text = text := by
      unfold llmCandidate
      rw [scanFence_none_of_no_fence text.data h]
    exact ⟨hc, by unfold resolveStructured; rw [hc]⟩

/-- Witness for C2's general conjuncts: a fenced block amid backtick-free
prose resolves through the block's trimmed interior; a fence-free reply
falls back to the whole text. -/
theorem c2_structured_resolution_witness :
    llmCandidate ("reply: " ++ "```json\n" ++ "\x7b\"ok\":true\x7d" ++ "\n```" ++ " done") =
      String.mk (jsTrim ("\x7b\"ok\":true\x7d").data) ∧
    llmCandidate "no fences here" = "no fences here" :=
  ⟨(c2_structured_resolution.2.2.2.1 "reply: " "\x7b\"ok\":true\x7d" " done"
      (by decide) (by decide)).1,
    (c2_structured_resolution.2.2.2.2 "no fences here" (by decide)).1⟩

end Web
